import Mathlib

/-!
Shallow embedding of the multiplexed terminal bridge
(`apps/api/services/terminal_bridge.py` and
`apps/api/services/pty_session_manager.py`).

Python dictionaries are modelled as insertion-ordered association lists,
mutation as explicit state passing, and the external collaborators
(container exec adapter, rate-limit store, client socket, PTY socket)
as oracle parameters plus an effect trace.  Frames sent to the client,
PTY writes, exec-resize calls, task spawns and cancellations, and
rate-limit store operations are all recorded as effects in program
order.
-/

namespace TerminalBridge

/-- Limit constants from terminal_bridge.py. -/
def MAX_WEBSOCKET_MESSAGE_SIZE : Nat := 64 * 1024

/-- Maximum size of one input frame's data, in bytes. -/
def MAX_INPUT_SIZE : Nat := 64 * 1024

/-- Per-session cumulative input cap (10 MiB). -/
def MAX_TOTAL_INPUT_PER_SESSION : Nat := 10 * 1024 * 1024

/-- Minimum terminal columns. -/
def MIN_TERMINAL_COLS : Int := 1

/-- Maximum terminal columns. -/
def MAX_TERMINAL_COLS : Int := 1000

/-- Minimum terminal rows. -/
def MIN_TERMINAL_ROWS : Int := 1

/-- Maximum terminal rows. -/
def MAX_TERMINAL_ROWS : Int := 1000

/-- Outbound frames (ServerMessage shapes in message_protocol.py). -/
inductive Frame where
  | sessionCreated (sid : String)
  | sessionClosed (sid : String)
  | output (sid : String) (data : String)
  | error (sid : String) (msg : String)
  deriving DecidableEq, Repr

/-- Observable effects of the bridge, recorded in program order. -/
inductive Effect where
  | wsAccept
  | wsClose (code : Nat)
  | checkConnection (ip : String)
  | trackConnection (connId : String) (ip : String)
  | untrackConnection (connId : String)
  | checkCommand (key : String) (ok : Bool)
  | send (f : Frame)
  | spawnReader (sid : String) (taskId : Nat)
  | ptyWrite (sid : String) (nbytes : Nat)
  | resizeExec (execId : String) (width : Int) (height : Int) (ok : Bool)
  | closeStream (sid : String)
  | cancelTask (taskId : Nat)
  | spawnSweeper
  | cancelSweeper
  deriving DecidableEq, Repr

/-- One PTY session (class PTYSession).  `readTasks` records every reader
task ever attached to this session: `read_task` is overwritten when a
duplicate create spawns a new reader, but all readers share `sock`, so
`close` stops all of them (cancel of the current one, socket close for
the rest). -/
structure PTYSession where
  sessionId : String
  execId : String
  readTasks : List Nat
  deriving DecidableEq, Repr

/-- Association-list lookup, mirroring `dict.get`. -/
def dget {α : Type} : List (String × α) → String → Option α
  | [], _ => none
  | p :: m, k => if p.1 = k then some p.2 else dget m k

/-- Association-list store, mirroring `d[k] = v` (update in place,
insert at the end when absent). -/
def dset {α : Type} : List (String × α) → String → α → List (String × α)
  | [], k, v => [(k, v)]
  | p :: m, k, v => if p.1 = k then (k, v) :: dset m k v else p :: dset m k v

/-- Association-list removal, mirroring `d.pop(k, None)` / `del d[k]`. -/
def dpop {α : Type} : List (String × α) → String → List (String × α)
  | [], _ => []
  | p :: m, k => if p.1 = k then dpop m k else p :: dpop m k

/-- Update the value at a key in place (used for attribute mutation on a
stored session object). -/
def dmodify {α : Type} (m : List (String × α)) (k : String) (f : α → α) :
    List (String × α) :=
  m.map (fun p => if p.1 = k then (p.1, f p.2) else p)

/-- Combined state of the bridge: the session registry owned by
PTYSessionManager plus the bookkeeping dictionaries of TerminalBridge.
`nextTaskId` supplies fresh ids for spawned reader tasks;
`spawnedTasks` / `stoppedTasks` are ghost fields recording which reader
tasks were ever started and which have been stopped (cancelled, or
certain to terminate because their session's socket was closed). -/
structure BridgeState where
  sessions : List (String × PTYSession)
  lastActivity : List (String × Nat)
  inputTotals : List (String × Nat)
  wsSessions : List (String × List String)
  nextTaskId : Nat
  spawnedTasks : List Nat
  stoppedTasks : List Nat
  deriving DecidableEq, Repr

/-- The bridge's state at construction time. -/
def BridgeState.init : BridgeState :=
  { sessions := [], lastActivity := [], inputTotals := [], wsSessions := []
    nextTaskId := 0, spawnedTasks := [], stoppedTasks := [] }

/-- PTYSessionManager.create_session.  If the id is already registered
the existing session is returned unchanged.  Otherwise the container
exec adapter is consulted; the oracle `cr` is `.ok execId` on success
and `.error e` when container/exec setup raises. -/
def create_session (st : BridgeState) (sid : String) (cr : Except String String) :
    Except String (BridgeState × PTYSession) :=
  match dget st.sessions sid with
  | some s => Except.ok (st, s)
  | none =>
    match cr with
    | Except.error e => Except.error e
    | Except.ok execId =>
      let s : PTYSession := { sessionId := sid, execId := execId, readTasks := [] }
      Except.ok ({ st with sessions := dset st.sessions sid s }, s)

/-- PTYSessionManager.get_session. -/
def get_session (st : BridgeState) (sid : String) : Option PTYSession :=
  dget st.sessions sid

/-- PTYSessionManager.close_session: pop the session; when present,
`PTYSession.close` closes the socket and cancels the current reader
task; every reader of the session stops (ghost `stoppedTasks`). -/
def close_session (st : BridgeState) (sid : String) : BridgeState × List Effect :=
  match dget st.sessions sid with
  | none => (st, [])
  | some s =>
    ({ st with sessions := dpop st.sessions sid
               stoppedTasks := st.stoppedTasks ++ s.readTasks },
     Effect.closeStream sid ::
       (match s.readTasks.getLast? with
        | some t => [Effect.cancelTask t]
        | none => []))

/-- PTYSessionManager.resize_session: missing session is a logged no-op;
otherwise exec_resize is called with width=cols, height=rows, and any
failure (oracle `ok := false`) is caught and logged, never re-raised. -/
def resize_session (st : BridgeState) (sid : String) (cols rows : Int)
    (ok : Bool) : BridgeState × List Effect :=
  match dget st.sessions sid with
  | none => (st, [])
  | some s => (st, [Effect.resizeExec s.execId cols rows ok])

/-- Outcome of the socket write inside write_to_session: success, an
OSError (caught: the session is closed and nothing propagates), or any
other exception (propagates to the caller). -/
inductive WriteOutcome where
  | ok
  | sockError
  | otherError (msg : String)
  deriving DecidableEq, Repr

/-- PTYSessionManager.write_to_session: missing session is a logged
no-op.  On success all bytes are written; on OSError the session is
closed and the function returns normally; any other exception is
re-raised (third component). -/
def write_to_session (st : BridgeState) (sid : String) (nbytes : Nat)
    (w : WriteOutcome) : BridgeState × List Effect × Option String :=
  match dget st.sessions sid with
  | none => (st, [], none)
  | some _ =>
    match w with
    | WriteOutcome.ok => (st, [Effect.ptyWrite sid nbytes], none)
    | WriteOutcome.sockError =>
      let r := close_session st sid
      (r.1, r.2, none)
    | WriteOutcome.otherError m => (st, [], some m)

/-- One observation of the reader loop's `sock_recv`: a chunk of output
(already UTF-8-decoded with replacement), end of stream (zero-length
read), or a stream error. -/
inductive ReadEvent where
  | chunk (data : String)
  | eof
  | sockError
  deriving DecidableEq, Repr

/-- The body of PTYSessionManager.read_from_session's loop: each chunk
becomes an output frame handed to the outbound writer; a zero-length
read or stream error breaks the loop. -/
def readLoop (sid : String) : List ReadEvent → List Effect
  | [] => []
  | ReadEvent.chunk d :: rest => Effect.send (Frame.output sid d) :: readLoop sid rest
  | ReadEvent.eof :: _ => []
  | ReadEvent.sockError :: _ => []

/-- PTYSessionManager.read_from_session: a missing session is a logged
no-op; otherwise the loop runs over the stream observations.  The
registry and all bridge state are untouched on every path. -/
def read_from_session (st : BridgeState) (sid : String)
    (events : List ReadEvent) : BridgeState × List Effect :=
  match dget st.sessions sid with
  | none => (st, [])
  | some _ => (st, readLoop sid events)

/-- JSON values that may sit in the cols/rows fields of a resize frame:
an integer, or something that fails `isinstance(x, int)`. -/
inductive JVal where
  | jint (n : Int)
  | nonInt
  deriving DecidableEq, Repr

/-- Parsed inbound client messages (ClientMessage shapes in
message_protocol.py).  A missing `sessionId`/`data` string field is
modelled as `""`, exactly how the code's `msg.get(...)` + falsiness
checks treat it; missing cols/rows are `none` (the code defaults them
to 80 and 24). -/
inductive ClientMessage where
  | createSession (sid : String)
  | input (sid : String) (data : String)
  | resize (sid : String) (cols rows : Option JVal)
  | closeSession (sid : String)
  | unknown
  deriving DecidableEq, Repr

/-- Oracle for one input frame: the command rate-limit verdict and the
outcome of the PTY socket write. -/
structure InputOracle where
  cmdOk : Bool
  write : WriteOutcome
  deriving DecidableEq, Repr

/-- Oracles consumed while handling one inbound frame: exec creation
result, input oracle, exec-resize verdict, and the current time. -/
structure FrameOracle where
  create : Except String String
  inp : InputOracle
  resizeOk : Bool
  now : Nat
  deriving Repr

/-- One raw inbound websocket text frame: its UTF-8 byte length, the
result of JSON decoding (`none` when json.loads fails or the value is
not a dict with a "type" key, both silently dropped), and the oracles
its handling will consume. -/
structure RawFrame where
  byteLen : Nat
  parsed : Option ClientMessage
  oracle : FrameOracle
  deriving Repr

/-- Remove a session id from a connection's owned set, mirroring
`if connection_id in self.websocket_sessions:
self.websocket_sessions[connection_id].discard(session_id)`. -/
def wsDiscard (ws : List (String × List String)) (connId sid : String) :
    List (String × List String) :=
  if (dget ws connId).isSome then
    dmodify ws connId (fun l => l.filter (fun x => x != sid))
  else ws

/-- TerminalBridge._handle_create_session.  An empty sessionId is
rejected with an error frame.  Otherwise the registry-level create runs
(returning the existing session unchanged on a duplicate id), the
bookkeeping dictionaries are (re)initialised, `session_created` is
emitted and a fresh reader task is spawned and attached to the session
object. -/
def handle_create_session (st : BridgeState) (connId sid : String)
    (now : Nat) (cr : Except String String) : BridgeState × List Effect :=
  if sid = "" then
    (st, [Effect.send (Frame.error "" "Missing sessionId in create_session message")])
  else
    match create_session st sid cr with
    | Except.error e =>
      (st, [Effect.send (Frame.error sid ("Failed to create session: " ++ e))])
    | Except.ok (st1, _) =>
      let st2 := { st1 with
        lastActivity := dset st1.lastActivity sid now
        inputTotals := dset st1.inputTotals sid 0 }
      let cur := (dget st2.wsSessions connId).getD []
      let st3 := { st2 with
        wsSessions := dset st2.wsSessions connId
          (if sid ∈ cur then cur else cur ++ [sid]) }
      let tid := st3.nextTaskId
      let st4 := { st3 with
        sessions := dmodify st3.sessions sid
          (fun s => { s with readTasks := s.readTasks ++ [tid] })
        nextTaskId := tid + 1
        spawnedTasks := st3.spawnedTasks ++ [tid] }
      (st4, [Effect.send (Frame.sessionCreated sid), Effect.spawnReader sid tid])

/-- TerminalBridge._handle_input.  Mirrors the code's order of checks:
falsy sessionId → silent drop; unknown session → error; command-rate
check (consumed before the data check); falsy data → silent drop; size
cap; cumulative-total update and 10 MiB cap (close on violation);
activity timestamp; socket write.  The code's re-decode of the just
encoded UTF-8 bytes can never fail for data that arrived as a JSON
string of valid Unicode, so it has no branch here. -/
def handle_input (st : BridgeState) (connId ip sid data : String)
    (now : Nat) (o : InputOracle) : BridgeState × List Effect :=
  if sid = "" then (st, [])
  else
    match dget st.sessions sid with
    | none => (st, [Effect.send (Frame.error sid "Session not found")])
    | some _ =>
      if o.cmdOk = false then
        (st, [Effect.checkCommand ip false,
              Effect.send (Frame.error sid "Rate limit exceeded. Please wait.")])
      else if data = "" then (st, [Effect.checkCommand ip true])
      else
        let n := data.utf8ByteSize
        if n > MAX_INPUT_SIZE then
          (st, [Effect.checkCommand ip true,
                Effect.send (Frame.error sid "Input too large. Maximum size is 64KB.")])
        else
          let newTotal := (dget st.inputTotals sid).getD 0 + n
          let st1 := { st with inputTotals := dset st.inputTotals sid newTotal }
          if newTotal > MAX_TOTAL_INPUT_PER_SESSION then
            let r := close_session st1 sid
            let st3 := { r.1 with wsSessions := wsDiscard r.1.wsSessions connId sid }
            (st3, Effect.checkCommand ip true ::
              Effect.send (Frame.error sid
                "Session input limit exceeded (10MB). Please reconnect.") :: r.2)
          else
            let st2 := { st1 with lastActivity := dset st1.lastActivity sid now }
            let w := write_to_session st2 sid n o.write
            match w.2.2 with
            | none => (w.1, Effect.checkCommand ip true :: w.2.1)
            | some m =>
              (w.1, Effect.checkCommand ip true :: w.2.1 ++
                [Effect.send (Frame.error sid ("Failed to write to session: " ++ m))])

/-- TerminalBridge._handle_resize: falsy sessionId → silent drop;
cols/rows default to 80/24; non-integers and out-of-range values are
rejected with an error frame before the registry is consulted;
otherwise resize_session runs (whose exec_resize failures are
swallowed). -/
def handle_resize (st : BridgeState) (sid : String)
    (cols rows : Option JVal) (resizeOk : Bool) : BridgeState × List Effect :=
  if sid = "" then (st, [])
  else
    match cols.getD (JVal.jint 80), rows.getD (JVal.jint 24) with
    | JVal.jint cv, JVal.jint rv =>
      if cv < MIN_TERMINAL_COLS ∨ cv > MAX_TERMINAL_COLS then
        (st, [Effect.send (Frame.error sid "Invalid cols value")])
      else if rv < MIN_TERMINAL_ROWS ∨ rv > MAX_TERMINAL_ROWS then
        (st, [Effect.send (Frame.error sid "Invalid rows value")])
      else resize_session st sid cv rv resizeOk
    | _, _ => (st, [Effect.send (Frame.error sid "Invalid resize dimensions type")])

/-- TerminalBridge._handle_close_session: falsy sessionId → silent
drop; otherwise the registry-level close runs (a no-op for an absent
id), the session leaves the connection's owned set and the bookkeeping
dictionaries, and `session_closed` is emitted unconditionally. -/
def handle_close_session (st : BridgeState) (connId sid : String) :
    BridgeState × List Effect :=
  if sid = "" then (st, [])
  else
    let r := close_session st sid
    let st2 := { r.1 with
      wsSessions := wsDiscard r.1.wsSessions connId sid
      lastActivity := dpop r.1.lastActivity sid
      inputTotals := dpop r.1.inputTotals sid }
    (st2, r.2 ++ [Effect.send (Frame.sessionClosed sid)])

/-- What `websocket.receive_text()` yields next: a text frame, or a
WebSocketDisconnect / receive error (both break the loop). -/
inductive InEvent where
  | frame (f : RawFrame)
  | disconnect
  deriving Repr

/-- One iteration of the dispatch loop past `receive_text`: the
oversize check runs on the raw byte length before any JSON decoding;
undecodable frames are dropped; decodable frames are routed on their
"type" discriminator (unknown types are logged and ignored). -/
def dispatch_frame (st : BridgeState) (connId ip : String) (f : RawFrame) :
    BridgeState × List Effect :=
  if f.byteLen > MAX_WEBSOCKET_MESSAGE_SIZE then
    (st, [Effect.send (Frame.error "" "Message too large. Maximum size is 64KB.")])
  else
    match f.parsed with
    | none => (st, [])
    | some (ClientMessage.createSession sid) =>
      handle_create_session st connId sid f.oracle.now f.oracle.create
    | some (ClientMessage.input sid data) =>
      handle_input st connId ip sid data f.oracle.now f.oracle.inp
    | some (ClientMessage.resize sid cols rows) =>
      handle_resize st sid cols rows f.oracle.resizeOk
    | some (ClientMessage.closeSession sid) => handle_close_session st connId sid
    | some ClientMessage.unknown => (st, [])

/-- The inner `while True` receive loop of handle_websocket, driven by
the sequence of receive results; a disconnect (or the sequence ending)
breaks out to teardown. -/
def dispatch_loop (st : BridgeState) (connId ip : String) :
    List InEvent → BridgeState × List Effect
  | [] => (st, [])
  | InEvent.disconnect :: _ => (st, [])
  | InEvent.frame f :: rest =>
    let r := dispatch_frame st connId ip f
    let r2 := dispatch_loop r.1 connId ip rest
    (r2.1, r.2 ++ r2.2)

/-- The per-session part of handle_websocket's finally block: close
each owned session and drop its bookkeeping entries. -/
def closeOwned (st : BridgeState) : List String → BridgeState × List Effect
  | [] => (st, [])
  | sid :: rest =>
    let r := close_session st sid
    let st2 := { r.1 with
      lastActivity := dpop r.1.lastActivity sid
      inputTotals := dpop r.1.inputTotals sid }
    let r2 := closeOwned st2 rest
    (r2.1, r.2 ++ r2.2)

/-- The finally block of handle_websocket: untrack the connection,
close every owned session and delete the owned set, and cancel the
idle sweeper when it was started. -/
def teardown (st : BridgeState) (connId : String) (sweeperSpawned : Bool) :
    BridgeState × List Effect :=
  let r :=
    match dget st.wsSessions connId with
    | none => (st, ([] : List Effect))
    | some sids =>
      let ra := closeOwned st sids
      ({ ra.1 with wsSessions := dpop ra.1.wsSessions connId }, ra.2)
  (r.1, Effect.untrackConnection connId :: r.2 ++
    (if sweeperSpawned then [Effect.cancelSweeper] else []))

/-- TerminalBridge.handle_websocket for one connection.  The websocket
is accepted first; then the connection rate limit is checked
(`connLimitOk` is the store's verdict).  On failure the raised
exception is caught by the outer handler, the socket is closed with
code 1011, and the finally block runs with nothing tracked and no
sweeper.  On success the connection is tracked, its owned set created,
the idle sweeper spawned, and the dispatch loop runs until disconnect;
the finally block then tears everything down. -/
def handle_websocket (st : BridgeState) (connId ip : String)
    (connLimitOk : Bool) (events : List InEvent) : BridgeState × List Effect :=
  if connLimitOk then
    let st1 := { st with wsSessions := dset st.wsSessions connId [] }
    let r := dispatch_loop st1 connId ip events
    let r2 := teardown r.1 connId true
    (r2.1, Effect.wsAccept :: Effect.checkConnection ip ::
      Effect.trackConnection connId ip :: Effect.spawnSweeper :: r.2 ++ r2.2)
  else
    let r := teardown st connId false
    (r.1, Effect.wsAccept :: Effect.checkConnection ip ::
      Effect.wsClose 1011 :: r.2)

/-- The code's rejection test on the (defaulted) cols and rows values
of a resize frame: a value that fails isinstance int, or an integer
outside [1, 1000]. -/
def badResizeDims : JVal → JVal → Prop
  | JVal.jint cv, JVal.jint rv =>
    cv < MIN_TERMINAL_COLS ∨ cv > MAX_TERMINAL_COLS ∨
      rv < MIN_TERMINAL_ROWS ∨ rv > MAX_TERMINAL_ROWS
  | _, _ => True

/-- The per-connection resource-hygiene invariant: every live session
is owned by the connection, and every reader task ever spawned is
either stopped or attached to a live session. -/
def Inv (st : BridgeState) (connId : String) : Prop :=
  (∀ sid, (dget st.sessions sid).isSome → sid ∈ (dget st.wsSessions connId).getD []) ∧
  (∀ t ∈ st.spawnedTasks,
     t ∈ st.stoppedTasks ∨ ∃ sid s, dget st.sessions sid = some s ∧ t ∈ s.readTasks)

/-- A bridge state holding one live session "s1" (exec id "e1", one
reader task) owned by connection "c", with 5 bytes of input recorded. -/
def sampleState : BridgeState :=
  { sessions := [("s1", { sessionId := "s1", execId := "e1", readTasks := [0] })]
    lastActivity := [("s1", 100)]
    inputTotals := [("s1", 5)]
    wsSessions := [("c", ["s1"])]
    nextTaskId := 1
    spawnedTasks := [0]
    stoppedTasks := [] }

/-- Like `sampleState` but with the session's cumulative input already
at the 10 MiB cap. -/
def fullState : BridgeState :=
  { sessions := [("s1", { sessionId := "s1", execId := "e1", readTasks := [0] })]
    lastActivity := [("s1", 100)]
    inputTotals := [("s1", 10485760)]
    wsSessions := [("c", ["s1"])]
    nextTaskId := 1
    spawnedTasks := [0]
    stoppedTasks := [] }

/-- Oracle values used by the concrete frames below: exec creation
succeeds with id "e9", the command limit passes and the PTY write
succeeds, exec resize succeeds, current time 0. -/
def okOracle : FrameOracle :=
  { create := Except.ok "e9", inp := { cmdOk := true, write := WriteOutcome.ok }
    resizeOk := true, now := 0 }

/-- A raw frame of the given byte length carrying a close_session
message for "s1". -/
def closeS1Frame (n : Nat) : RawFrame :=
  { byteLen := n, parsed := some (ClientMessage.closeSession "s1"), oracle := okOracle }

/-- A raw frame creating session "s1". -/
def createS1Frame : RawFrame :=
  { byteLen := 40, parsed := some (ClientMessage.createSession "s1"), oracle := okOracle }

/-! Dictionary lemmas. -/

/-- Looking up the key just stored yields the stored value. -/
theorem dget_dset_self {α : Type} (m : List (String × α)) (k : String) (v : α) :
    dget (dset m k v) k = some v := by
  induction m with
  | nil => simp [dget, dset]
  | cons p m ih =>
    by_cases hp : p.1 = k
    · simp [dset, hp, dget]
    · simp [dset, hp, dget, ih]

/-- Storing at one key leaves other keys unchanged. -/
theorem dget_dset_ne {α : Type} (m : List (String × α)) (k k2 : String) (v : α)
    (h : k ≠ k2) : dget (dset m k v) k2 = dget m k2 := by
  induction m with
  | nil => simp [dget, dset, h]
  | cons p m ih =>
    by_cases hp : p.1 = k
    · simp [dset, hp, dget, h, ih]
    · simp [dset, hp, dget, ih]

/-- A popped key is gone. -/
theorem dget_dpop_self {α : Type} (m : List (String × α)) (k : String) :
    dget (dpop m k) k = none := by
  induction m with
  | nil => simp [dget, dpop]
  | cons p m ih =>
    by_cases hp : p.1 = k
    · simp [dpop, hp, ih]
    · simp [dpop, hp, dget, ih]

/-- Popping one key leaves other keys unchanged. -/
theorem dget_dpop_ne {α : Type} (m : List (String × α)) (k k2 : String)
    (h : k ≠ k2) : dget (dpop m k) k2 = dget m k2 := by
  induction m with
  | nil => simp [dpop]
  | cons p m ih =>
    by_cases hp : p.1 = k
    · have hp2 : p.1 ≠ k2 := by rw [hp]; exact h
      simp [dpop, hp, dget, hp2, h, ih]
    · simp [dpop, hp, dget, ih]

/-- In-place modification rewrites the value found at the key. -/
theorem dget_dmodify_self {α : Type} (m : List (String × α)) (k : String)
    (f : α → α) : dget (dmodify m k f) k = (dget m k).map f := by
  induction m with
  | nil => simp [dget, dmodify]
  | cons p m ih =>
    simp only [dmodify] at ih ⊢
    by_cases hp : p.1 = k
    · simp [hp, dget]
    · simp [hp, dget, ih]

/-- In-place modification at one key leaves other keys unchanged. -/
theorem dget_dmodify_ne {α : Type} (m : List (String × α)) (k k2 : String)
    (f : α → α) (h : k ≠ k2) : dget (dmodify m k f) k2 = dget m k2 := by
  induction m with
  | nil => simp [dmodify]
  | cons p m ih =>
    simp only [dmodify] at ih ⊢
    by_cases hp : p.1 = k
    · have hp2 : p.1 ≠ k2 := by rw [hp]; exact h
      simp [hp, dget, hp2, h, ih]
    · simp [hp, dget, ih]

/-- A dictionary with no key present is the empty dictionary. -/
theorem eq_nil_of_dget_none {α : Type} (m : List (String × α))
    (h : ∀ k, dget m k = none) : m = [] := by
  cases m with
  | nil => rfl
  | cons p m =>
    have hp := h p.1
    simp [dget] at hp

/-- Lookup after discarding a session id from a connection's set. -/
theorem dget_wsDiscard_self (ws : List (String × List String)) (connId sid : String) :
    dget (wsDiscard ws connId sid) connId =
      (dget ws connId).map (fun l => l.filter (fun x => x != sid)) := by
  unfold wsDiscard
  by_cases hs : (dget ws connId).isSome
  · simp [hs, dget_dmodify_self]
  · rw [if_neg hs]
    rw [Option.not_isSome_iff_eq_none] at hs
    simp [hs]

/-- Discarding at one connection leaves other connections unchanged. -/
theorem dget_wsDiscard_ne (ws : List (String × List String)) (connId sid k : String)
    (h : connId ≠ k) : dget (wsDiscard ws connId sid) k = dget ws k := by
  unfold wsDiscard
  by_cases hs : (dget ws connId).isSome
  · simp [hs, dget_dmodify_ne _ _ _ _ h]
  · simp [hs]

/-! Claim theorems. -/

/-- C8: an inbound frame whose UTF-8 byte length exceeds 65,536 bytes
is rejected before JSON parsing: one error frame is emitted, the
dispatch loop continues, the state is untouched, and the remaining
frames are processed exactly as if the oversize frame had not been
sent.  The right-hand side never inspects `f.parsed` or `f.oracle`, so
the outcome is independent of the frame's contents. -/
theorem oversize_frame_rejected (st : BridgeState) (connId ip : String)
    (f : RawFrame) (rest : List InEvent)
    (h : f.byteLen > MAX_WEBSOCKET_MESSAGE_SIZE) :
    dispatch_loop st connId ip (InEvent.frame f :: rest) =
      ((dispatch_loop st connId ip rest).1,
        Effect.send (Frame.error "" "Message too large. Maximum size is 64KB.") ::
          (dispatch_loop st connId ip rest).2) := by
  simp [dispatch_loop, dispatch_frame, h]

/-- Witness for C8: a 70 KiB frame carrying a valid close_session
message is rejected with one error frame, and the following valid
close_session frame is still processed normally. -/
theorem oversize_frame_rejected_witness :
    dispatch_loop sampleState "c" "ip"
        [InEvent.frame (closeS1Frame 71680), InEvent.frame (closeS1Frame 40)] =
      ((dispatch_loop sampleState "c" "ip" [InEvent.frame (closeS1Frame 40)]).1,
        Effect.send (Frame.error "" "Message too large. Maximum size is 64KB.") ::
          (dispatch_loop sampleState "c" "ip" [InEvent.frame (closeS1Frame 40)]).2) :=
  oversize_frame_rejected sampleState "c" "ip" (closeS1Frame 71680)
    [InEvent.frame (closeS1Frame 40)] (by decide)

/-- C9: a close_session frame with a non-empty sessionId always ends by
emitting a session_closed frame carrying that id, afterwards the
registry does not contain the session, and the registry-level close is
a strict no-op on an absent id. -/
theorem close_session_always_replies (st : BridgeState) (connId sid : String)
    (h : sid ≠ "") :
    Effect.send (Frame.sessionClosed sid) ∈ (handle_close_session st connId sid).2 ∧
    dget (handle_close_session st connId sid).1.sessions sid = none ∧
    (dget st.sessions sid = none → close_session st sid = (st, [])) := by
  unfold handle_close_session close_session
  cases hs : dget st.sessions sid with
  | none => simp [h, hs]
  | some s => simp [h, hs, dget_dpop_self]

/-- Witness for C9: closing the absent session "zz" still yields a
session_closed frame for "zz" and the registry-level close changes
nothing. -/
theorem close_session_always_replies_witness :
    Effect.send (Frame.sessionClosed "zz") ∈ (handle_close_session sampleState "c" "zz").2 ∧
    dget (handle_close_session sampleState "c" "zz").1.sessions "zz" = none ∧
    (dget sampleState.sessions "zz" = none →
      close_session sampleState "zz" = (sampleState, [])) :=
  close_session_always_replies sampleState "c" "zz" (by decide)

/-- C10: an input frame for an existing session that passes the command
rate-limit check but carries missing/empty data is dropped after the
rate-limit counter is consumed: the state is returned unchanged and the
only effect is the rate-limit store increment. -/
theorem empty_input_dropped (st : BridgeState) (connId ip sid : String)
    (now : Nat) (o : InputOracle) (s : PTYSession)
    (hsid : sid ≠ "") (hs : dget st.sessions sid = some s) (hok : o.cmdOk = true) :
    handle_input st connId ip sid "" now o = (st, [Effect.checkCommand ip true]) := by
  simp [handle_input, hsid, hs, hok]

/-- Witness for C10: an empty input frame for the live session "s1"
leaves the state untouched and records only the rate-limit check. -/
theorem empty_input_dropped_witness :
    handle_input sampleState "c" "ip" "s1" "" 200
        { cmdOk := true, write := WriteOutcome.ok } =
      (sampleState, [Effect.checkCommand "ip" true]) :=
  empty_input_dropped sampleState "c" "ip" "s1" 200 _
    { sessionId := "s1", execId := "e1", readTasks := [0] } (by decide) (by decide) rfl

/-- Whenever handle_input actually writes to the PTY, the session's
recorded cumulative total is within the 10 MiB cap. -/
theorem handle_input_write_within_cap (st : BridgeState) (connId ip sid data : String)
    (now : Nat) (o : InputOracle) (n : Nat)
    (hmem : Effect.ptyWrite sid n ∈ (handle_input st connId ip sid data now o).2) :
    (dget (handle_input st connId ip sid data now o).1.inputTotals sid).getD 0 ≤
      MAX_TOTAL_INPUT_PER_SESSION := by
  unfold handle_input at hmem ⊢
  by_cases hsid : sid = ""
  · simp [hsid] at hmem
  · simp only [if_neg hsid] at hmem ⊢
    cases hs : dget st.sessions sid with
    | none => simp [hs] at hmem
    | some s =>
      simp only [hs] at hmem ⊢
      by_cases hok : o.cmdOk = false
      · simp [hok] at hmem
      · simp only [if_neg hok] at hmem ⊢
        by_cases hd : data = ""
        · simp [hd] at hmem
        · simp only [if_neg hd] at hmem ⊢
          by_cases hn : data.utf8ByteSize > MAX_INPUT_SIZE
          · simp [hn] at hmem
          · simp only [if_neg hn] at hmem ⊢
            by_cases ht : (dget st.inputTotals sid).getD 0 + data.utf8ByteSize >
                MAX_TOTAL_INPUT_PER_SESSION
            · rw [if_pos ht] at hmem
              unfold close_session at hmem
              simp only [hs] at hmem
              cases hlast : PTYSession.readTasks s |>.getLast? <;> simp [hlast] at hmem
            · rw [if_neg ht] at hmem ⊢
              unfold write_to_session at hmem ⊢
              simp only [hs] at hmem ⊢
              cases hw : o.write with
              | ok =>
                simp only [hw] at hmem ⊢
                simp [dget_dset_self]
                omega
              | sockError =>
                simp only [hw] at hmem
                unfold close_session at hmem
                simp only [hs] at hmem
                cases hlast : PTYSession.readTasks s |>.getLast? <;> simp [hlast] at hmem
              | otherError m => simp [hw] at hmem

/-- When an input frame pushes the cumulative total over the 10 MiB
cap, the limit error frame is emitted, the session is removed from the
registry, and no bytes are written to the PTY. -/
theorem handle_input_overflow_closes (st : BridgeState) (connId ip sid data : String)
    (now : Nat) (o : InputOracle) (s : PTYSession)
    (hsid : sid ≠ "") (hs : dget st.sessions sid = some s) (hok : o.cmdOk = true)
    (hd : data ≠ "") (hsize : data.utf8ByteSize ≤ MAX_INPUT_SIZE)
    (ht : (dget st.inputTotals sid).getD 0 + data.utf8ByteSize >
      MAX_TOTAL_INPUT_PER_SESSION) :
    Effect.send (Frame.error sid "Session input limit exceeded (10MB). Please reconnect.")
        ∈ (handle_input st connId ip sid data now o).2 ∧
    dget (handle_input st connId ip sid data now o).1.sessions sid = none ∧
    ∀ n, Effect.ptyWrite sid n ∉ (handle_input st connId ip sid data now o).2 := by
  have hok2 : ¬ o.cmdOk = false := by simp [hok]
  have hn : ¬ data.utf8ByteSize > MAX_INPUT_SIZE := by omega
  unfold handle_input
  simp only [if_neg hsid, hs, if_neg hok2, if_neg hd, if_neg hn, if_pos ht]
  unfold close_session
  simp only [hs]
  cases hlast : PTYSession.readTasks s |>.getLast? <;>
    simp [hlast, dget_dpop_self, wsDiscard, dget_dmodify_self]

/-- C4: the 10 MiB cumulative input cap.  Whenever a write to the PTY
happens, the session's input_total_bytes is at most 10,485,760; and an
input frame that pushes the total over the cap elicits the limit error
frame, removes the session from the registry, and writes none of the
frame's bytes to the PTY. -/
theorem input_cap_enforced (st : BridgeState) (connId ip sid data : String)
    (now : Nat) (o : InputOracle) :
    (∀ n, Effect.ptyWrite sid n ∈ (handle_input st connId ip sid data now o).2 →
       (dget (handle_input st connId ip sid data now o).1.inputTotals sid).getD 0 ≤
         MAX_TOTAL_INPUT_PER_SESSION) ∧
    (∀ s, dget st.sessions sid = some s → sid ≠ "" → o.cmdOk = true → data ≠ "" →
       data.utf8ByteSize ≤ MAX_INPUT_SIZE →
       (dget st.inputTotals sid).getD 0 + data.utf8ByteSize >
           MAX_TOTAL_INPUT_PER_SESSION →
       Effect.send (Frame.error sid
           "Session input limit exceeded (10MB). Please reconnect.")
           ∈ (handle_input st connId ip sid data now o).2 ∧
       dget (handle_input st connId ip sid data now o).1.sessions sid = none ∧
       ∀ n, Effect.ptyWrite sid n ∉ (handle_input st connId ip sid data now o).2) :=
  ⟨fun n hmem => handle_input_write_within_cap st connId ip sid data now o n hmem,
   fun s hs hsid hok hd hsize ht =>
     handle_input_overflow_closes st connId ip sid data now o s hsid hs hok hd hsize ht⟩

/-- Witness for C4: with the total already at 10 MiB, a one-byte input
frame elicits the limit error, removes "s1" from the registry, and
writes nothing. -/
theorem input_cap_enforced_witness :
    Effect.send (Frame.error "s1" "Session input limit exceeded (10MB). Please reconnect.")
        ∈ (handle_input fullState "c" "ip" "s1" "x" 0
            { cmdOk := true, write := WriteOutcome.ok }).2 ∧
    dget (handle_input fullState "c" "ip" "s1" "x" 0
        { cmdOk := true, write := WriteOutcome.ok }).1.sessions "s1" = none := by
  have h := (input_cap_enforced fullState "c" "ip" "s1" "x" 0
      { cmdOk := true, write := WriteOutcome.ok }).2
    { sessionId := "s1", execId := "e1", readTasks := [0] }
    (by decide) (by decide) rfl (by decide) (by decide) (by decide)
  exact ⟨h.1, h.2.1⟩

/-- Storing a value at least as large as the old one at one key never
shrinks any key's defaulted lookup. -/
theorem dget_dset_getD_mono (m : List (String × Nat)) (k k2 : String) (v : Nat)
    (h : (dget m k).getD 0 ≤ v) :
    (dget m k2).getD 0 ≤ (dget (dset m k v) k2).getD 0 := by
  by_cases hk : k = k2
  · subst hk
    simp only [dget_dset_self, Option.getD_some]
    exact h
  · simp [dget_dset_ne m k k2 v hk]

/-- handle_input never decreases any session's recorded cumulative
input total. -/
theorem handle_input_totals_monotone (st : BridgeState) (connId ip sid data : String)
    (now : Nat) (o : InputOracle) (sid2 : String) :
    (dget st.inputTotals sid2).getD 0 ≤
      (dget (handle_input st connId ip sid data now o).1.inputTotals sid2).getD 0 := by
  unfold handle_input
  by_cases hsid : sid = ""
  · simp [hsid]
  · simp only [if_neg hsid]
    cases hs : dget st.sessions sid with
    | none => simp
    | some s =>
      simp only []
      by_cases hok : o.cmdOk = false
      · simp [hok]
      · simp only [if_neg hok]
        by_cases hd : data = ""
        · simp [hd]
        · simp only [if_neg hd]
          by_cases hn : data.utf8ByteSize > MAX_INPUT_SIZE
          · simp [hn]
          · simp only [if_neg hn]
            by_cases ht : (dget st.inputTotals sid).getD 0 + data.utf8ByteSize >
                MAX_TOTAL_INPUT_PER_SESSION
            · rw [if_pos ht]
              unfold close_session
              simp only [hs]
              exact dget_dset_getD_mono _ _ _ _ (Nat.le_add_right _ _)
            · rw [if_neg ht]
              unfold write_to_session
              simp only [hs]
              cases hw : o.write with
              | ok =>
                simp only [hw]
                exact dget_dset_getD_mono _ _ _ _ (Nat.le_add_right _ _)
              | sockError =>
                simp only [hw]
                unfold close_session
                simp only [hs]
                exact dget_dset_getD_mono _ _ _ _ (Nat.le_add_right _ _)
              | otherError m =>
                simp only [hw]
                exact dget_dset_getD_mono _ _ _ _ (Nat.le_add_right _ _)

/-- A create_session frame for an id already in the registry emits
session_created (idempotency reply) but re-initialises the session's
cumulative input total to 0. -/
theorem duplicate_create_emits_and_resets (st : BridgeState) (connId sid : String)
    (now : Nat) (cr : Except String String) (s : PTYSession)
    (hs : dget st.sessions sid = some s) (hsid : sid ≠ "") :
    Effect.send (Frame.sessionCreated sid) ∈
        (handle_create_session st connId sid now cr).2 ∧
    dget (handle_create_session st connId sid now cr).1.inputTotals sid = some 0 := by
  unfold handle_create_session create_session
  simp only [if_neg hsid, hs]
  exact ⟨by simp, by simp [dget_dset_self]⟩

/-- C5 (amended): input frames never decrease any session's
input_total_bytes; but a create_session frame whose sessionId is
already present, besides emitting session_created for idempotency,
resets that session's input_total_bytes to 0. -/
theorem totals_monotone_under_input_reset_by_create :
    (∀ st connId ip sid data now o sid2,
       (dget st.inputTotals sid2).getD 0 ≤
         (dget (handle_input st connId ip sid data now o).1.inputTotals sid2).getD 0) ∧
    (∀ st connId sid now cr s, dget st.sessions sid = some s → sid ≠ "" →
       Effect.send (Frame.sessionCreated sid) ∈
           (handle_create_session st connId sid now cr).2 ∧
       dget (handle_create_session st connId sid now cr).1.inputTotals sid = some 0) :=
  ⟨fun st connId ip sid data now o sid2 =>
     handle_input_totals_monotone st connId ip sid data now o sid2,
   fun st connId sid now cr s hs hsid =>
     duplicate_create_emits_and_resets st connId sid now cr s hs hsid⟩

/-- Witness for C5 (amended): an input frame on "s1" does not decrease
its total, and a duplicate create for "s1" emits session_created and
resets the total to 0. -/
theorem totals_monotone_under_input_reset_by_create_witness :
    ((dget sampleState.inputTotals "s1").getD 0 ≤
       (dget (handle_input sampleState "c" "ip" "s1" "hi" 0
           { cmdOk := true, write := WriteOutcome.ok }).1.inputTotals "s1").getD 0) ∧
    (Effect.send (Frame.sessionCreated "s1") ∈
        (handle_create_session sampleState "c" "s1" 7 (Except.ok "e2")).2 ∧
     dget (handle_create_session sampleState "c" "s1" 7
         (Except.ok "e2")).1.inputTotals "s1" = some 0) :=
  ⟨totals_monotone_under_input_reset_by_create.1 sampleState "c" "ip" "s1" "hi" 0
     { cmdOk := true, write := WriteOutcome.ok } "s1",
   totals_monotone_under_input_reset_by_create.2 sampleState "c" "s1" 7 (Except.ok "e2")
     { sessionId := "s1", execId := "e1", readTasks := [0] } (by decide) (by decide)⟩

/-- Counterexample for C5 as stated: session "s1" has 5 bytes recorded;
a duplicate create_session frame for "s1" emits session_created but
drops input_total_bytes from 5 to 0, so the counter is not
monotonically non-decreasing over the session's lifetime. -/
theorem duplicate_create_decreases_total_counterexample :
    dget sampleState.inputTotals "s1" = some 5 ∧
    dget (handle_create_session sampleState "c" "s1" 7
        (Except.ok "e2")).1.inputTotals "s1" = some 0 ∧
    Effect.send (Frame.sessionCreated "s1") ∈
      (handle_create_session sampleState "c" "s1" 7 (Except.ok "e2")).2 := by
  decide

/-- C6 (amended): when exec-resize fails for a valid resize on an
existing session, the failure is swallowed inside the registry's resize
operation: the call is made, no frame of any kind is sent to the
client, the state is unchanged, and the connection survives. -/
theorem resize_exec_failure_swallowed (st : BridgeState) (sid : String)
    (cols rows : Int) (s : PTYSession)
    (hsid : sid ≠ "") (hs : dget st.sessions sid = some s)
    (hc1 : MIN_TERMINAL_COLS ≤ cols) (hc2 : cols ≤ MAX_TERMINAL_COLS)
    (hr1 : MIN_TERMINAL_ROWS ≤ rows) (hr2 : rows ≤ MAX_TERMINAL_ROWS) :
    handle_resize st sid (some (JVal.jint cols)) (some (JVal.jint rows)) false =
      (st, [Effect.resizeExec s.execId cols rows false]) := by
  have hc : ¬ (cols < MIN_TERMINAL_COLS ∨ cols > MAX_TERMINAL_COLS) := by
    push_neg
    exact ⟨hc1, hc2⟩
  have hr : ¬ (rows < MIN_TERMINAL_ROWS ∨ rows > MAX_TERMINAL_ROWS) := by
    push_neg
    exact ⟨hr1, hr2⟩
  unfold handle_resize resize_session
  simp only [if_neg hsid, Option.getD_some, if_neg hc, if_neg hr, hs]

/-- Witness for C6 (amended): resizing live session "s1" to 100x40 with
a failing exec-resize records only the failed adapter call. -/
theorem resize_exec_failure_swallowed_witness :
    handle_resize sampleState "s1" (some (JVal.jint 100)) (some (JVal.jint 40)) false =
      (sampleState, [Effect.resizeExec "e1" 100 40 false]) :=
  resize_exec_failure_swallowed sampleState "s1" 100 40
    { sessionId := "s1", execId := "e1", readTasks := [0] }
    (by decide) (by decide) (by decide) (by decide) (by decide) (by decide)

/-- Counterexample for C6 as stated: for a valid 100x40 resize of live
session "s1" whose exec-resize fails, the effect trace is exactly the
failed adapter call — no error frame is emitted to the client. -/
theorem resize_exec_failure_no_error_frame_counterexample :
    handle_resize sampleState "s1" (some (JVal.jint 100)) (some (JVal.jint 40)) false =
      (sampleState, [Effect.resizeExec "e1" 100 40 false]) := by
  decide

/-- C7 (amended): for a resize frame with a non-empty sessionId: bad
dimensions yield exactly one error frame and no exec-resize call, and
valid dimensions on an existing session yield exactly the exec-resize
call with those cols (width) and rows (height). -/
theorem resize_validation (st : BridgeState) (sid : String)
    (cols rows : Option JVal) (ok : Bool) (hsid : sid ≠ "") :
    (badResizeDims (cols.getD (JVal.jint 80)) (rows.getD (JVal.jint 24)) →
       (∃ e, handle_resize st sid cols rows ok = (st, [Effect.send (Frame.error sid e)]))) ∧
    (∀ cv rv s, cols.getD (JVal.jint 80) = JVal.jint cv →
       rows.getD (JVal.jint 24) = JVal.jint rv →
       MIN_TERMINAL_COLS ≤ cv → cv ≤ MAX_TERMINAL_COLS →
       MIN_TERMINAL_ROWS ≤ rv → rv ≤ MAX_TERMINAL_ROWS →
       dget st.sessions sid = some s →
       handle_resize st sid cols rows ok = (st, [Effect.resizeExec s.execId cv rv ok])) := by
  constructor
  · intro hbad
    unfold handle_resize
    cases hcv : cols.getD (JVal.jint 80) with
    | nonInt =>
      cases hrv : rows.getD (JVal.jint 24) <;> simp [if_neg hsid, hcv, hrv]
    | jint cv =>
      cases hrv : rows.getD (JVal.jint 24) with
      | nonInt => simp [if_neg hsid, hcv, hrv]
      | jint rv =>
        rw [hcv, hrv] at hbad
        unfold badResizeDims at hbad
        by_cases hc : cv < MIN_TERMINAL_COLS ∨ cv > MAX_TERMINAL_COLS
        · simp [if_neg hsid, hcv, hrv, if_pos hc]
        · have hr : rv < MIN_TERMINAL_ROWS ∨ rv > MAX_TERMINAL_ROWS := by tauto
          simp [if_neg hsid, hcv, hrv, if_neg hc, if_pos hr]
  · intro cv rv s hcv hrv hc1 hc2 hr1 hr2 hs
    have hc : ¬ (cv < MIN_TERMINAL_COLS ∨ cv > MAX_TERMINAL_COLS) := by
      push_neg
      exact ⟨hc1, hc2⟩
    have hr : ¬ (rv < MIN_TERMINAL_ROWS ∨ rv > MAX_TERMINAL_ROWS) := by
      push_neg
      exact ⟨hr1, hr2⟩
    unfold handle_resize resize_session
    rw [hcv, hrv]
    simp only [if_neg hsid, if_neg hc, if_neg hr, hs]

/-- Witness for C7 (amended): cols = 0 on session "s1" yields exactly
one error frame, and a valid 120x40 resize on live "s1" calls
exec-resize with exactly width 120, height 40. -/
theorem resize_validation_witness :
    (∃ e, handle_resize sampleState "s1" (some (JVal.jint 0)) (some (JVal.jint 24)) true =
        (sampleState, [Effect.send (Frame.error "s1" e)])) ∧
    handle_resize sampleState "s1" (some (JVal.jint 120)) (some (JVal.jint 40)) true =
      (sampleState, [Effect.resizeExec "e1" 120 40 true]) :=
  ⟨(resize_validation sampleState "s1" (some (JVal.jint 0)) (some (JVal.jint 24)) true
      (by decide)).1 (by exact Or.inl (by decide)),
   (resize_validation sampleState "s1" (some (JVal.jint 120)) (some (JVal.jint 40)) true
      (by decide)).2 120 40 { sessionId := "s1", execId := "e1", readTasks := [0] }
     rfl rfl (by decide) (by decide) (by decide) (by decide) (by decide)⟩

/-- Counterexample for C7 as stated: a resize frame whose sessionId is
missing/empty but whose cols value 0 is invalid is dropped silently —
no error frame is emitted, so the claim's "for every resize frame"
fails. -/
theorem resize_missing_sid_counterexample :
    handle_resize sampleState "" (some (JVal.jint 0)) (some (JVal.jint 24)) true =
      (sampleState, []) := by
  decide

/-- C1 (amended): when the PTY reader observes a zero-length read or a
stream error it terminates its loop leaving the whole bridge state —
in particular the session registry — untouched, and every effect it
ever produced is an output frame for its own session: it neither
removes the session nor emits session_closed (session_closed frames
come only from close_session handling). -/
theorem reader_exit_leaves_registry (st : BridgeState) (sid : String)
    (events : List ReadEvent) :
    (read_from_session st sid events).1 = st ∧
    ∀ e ∈ (read_from_session st sid events).2,
      ∃ d, e = Effect.send (Frame.output sid d) := by
  unfold read_from_session
  cases hs : dget st.sessions sid with
  | none => simp
  | some s =>
    refine ⟨rfl, ?_⟩
    intro e he
    simp only [] at he
    induction events with
    | nil => simp [readLoop] at he
    | cons ev rest ih =>
      cases ev with
      | chunk d =>
        simp only [readLoop, List.mem_cons] at he
        cases he with
        | inl h => exact ⟨d, h⟩
        | inr h => exact ih h
      | eof => simp [readLoop] at he
      | sockError => simp [readLoop] at he

/-- Counterexample for C1 as stated: the reader of live session "s1"
observes a zero-length read; afterwards the state is unchanged — "s1"
is still in the registry — and no frame at all (in particular no
session_closed) was emitted. -/
theorem reader_eof_counterexample :
    read_from_session sampleState "s1" [ReadEvent.eof] = (sampleState, []) ∧
    dget sampleState.sessions "s1" =
      some { sessionId := "s1", execId := "e1", readTasks := [0] } := by
  decide

/-- C2 (amended): the websocket is accepted first; the connection
rate-limit check runs right after accept, and when it fails the
channel is closed with code 1011, Track is never called, no frame is
processed, the state is unchanged, and the connection is untracked in
the finally block. -/
theorem rate_limited_connection_rejected (st : BridgeState) (connId ip : String)
    (events : List InEvent) (h : dget st.wsSessions connId = none) :
    handle_websocket st connId ip false events =
      (st, [Effect.wsAccept, Effect.checkConnection ip, Effect.wsClose 1011,
            Effect.untrackConnection connId]) := by
  unfold handle_websocket teardown
  simp [h]

/-- Witness for C2 (amended): a rate-limited connection attempt on a
fresh bridge produces exactly accept, check, close 1011, untrack. -/
theorem rate_limited_connection_rejected_witness :
    handle_websocket BridgeState.init "c" "ip" false [] =
      (BridgeState.init, [Effect.wsAccept, Effect.checkConnection "ip",
        Effect.wsClose 1011, Effect.untrackConnection "c"]) :=
  rate_limited_connection_rejected BridgeState.init "c" "ip" [] (by decide)

/-- Counterexample for C2 as stated: on a rate-limited attempt the very
first effect is the websocket accept, so accept IS invoked and
CheckConnection does not run before the handshake is accepted. -/
theorem accept_before_rate_check_counterexample :
    (handle_websocket BridgeState.init "c" "ip" false []).2.head? =
        some Effect.wsAccept ∧
    Effect.wsAccept ∈ (handle_websocket BridgeState.init "c" "ip" false []).2 := by
  decide

/-- The invariant only reads four fields, so any update elsewhere
preserves it. -/
theorem inv_of_fields (st st2 : BridgeState) (connId : String)
    (hsess : st2.sessions = st.sessions) (hws : st2.wsSessions = st.wsSessions)
    (hspawn : st2.spawnedTasks = st.spawnedTasks)
    (hstop : st2.stoppedTasks = st.stoppedTasks)
    (h : Inv st connId) : Inv st2 connId := by
  unfold Inv at h ⊢
  rw [hsess, hws, hspawn, hstop]
  exact h

/-- Registry after a close: the closed id is gone, others unchanged. -/
theorem close_session_sessions (st : BridgeState) (sid k : String) :
    dget (close_session st sid).1.sessions k =
      if k = sid then none else dget st.sessions k := by
  unfold close_session
  cases hs : dget st.sessions sid with
  | none =>
    by_cases hk : k = sid
    · subst hk
      simp [hs]
    · simp [hk]
  | some s =>
    by_cases hk : k = sid
    · subst hk
      simp [dget_dpop_self]
    · simp [hk, dget_dpop_ne _ _ _ (fun hh => hk hh.symm)]

/-- A close leaves the other bookkeeping fields alone. -/
theorem close_session_other_fields (st : BridgeState) (sid : String) :
    (close_session st sid).1.spawnedTasks = st.spawnedTasks ∧
    (close_session st sid).1.wsSessions = st.wsSessions ∧
    (close_session st sid).1.lastActivity = st.lastActivity ∧
    (close_session st sid).1.inputTotals = st.inputTotals := by
  unfold close_session
  cases hs : dget st.sessions sid <;> simp

/-- Stopped tasks only accumulate across a close. -/
theorem close_session_stopped_sup (st : BridgeState) (sid : String) :
    ∀ t ∈ st.stoppedTasks, t ∈ (close_session st sid).1.stoppedTasks := by
  intro t ht
  unfold close_session
  cases hs : dget st.sessions sid with
  | none => exact ht
  | some s => simp [ht]

/-- Closing a live session stops every reader task ever attached to
it (the current one by cancellation, the rest by the socket close). -/
theorem close_session_stops_found (st : BridgeState) (sid : String) (s : PTYSession)
    (hs : dget st.sessions sid = some s) :
    ∀ t ∈ s.readTasks, t ∈ (close_session st sid).1.stoppedTasks := by
  intro t ht
  unfold close_session
  simp [hs, ht]

/-- PTYSessionManager.close_session preserves the hygiene invariant. -/
theorem close_session_inv (st : BridgeState) (connId sid : String)
    (h : Inv st connId) : Inv (close_session st sid).1 connId := by
  obtain ⟨hown, htask⟩ := h
  constructor
  · intro k hk
    rw [close_session_sessions] at hk
    by_cases hks : k = sid
    · rw [if_pos hks] at hk
      simp at hk
    · rw [if_neg hks] at hk
      rw [(close_session_other_fields st sid).2.1]
      exact hown k hk
  · intro t ht
    rw [(close_session_other_fields st sid).1] at ht
    cases htask t ht with
    | inl hstop => exact Or.inl (close_session_stopped_sup st sid t hstop)
    | inr hex =>
      obtain ⟨sid2, s2, hs2, hts⟩ := hex
      by_cases hq : sid2 = sid
      · subst hq
        exact Or.inl (close_session_stops_found st sid2 s2 hs2 t hts)
      · refine Or.inr ⟨sid2, s2, ?_, hts⟩
        rw [close_session_sessions, if_neg hq]
        exact hs2

/-- Discarding a dead session id from the connection's owned set
preserves the hygiene invariant. -/
theorem wsDiscard_inv (st : BridgeState) (connId sid : String)
    (h : Inv st connId) (hdead : dget st.sessions sid = none) :
    Inv { st with wsSessions := wsDiscard st.wsSessions connId sid } connId := by
  obtain ⟨hown, htask⟩ := h
  constructor
  · intro k hk
    have hkow := hown k hk
    have hkne : k ≠ sid := by
      intro hh
      subst hh
      rw [hdead] at hk
      simp at hk
    show k ∈ (dget (wsDiscard st.wsSessions connId sid) connId).getD []
    rw [dget_wsDiscard_self]
    cases hW : dget st.wsSessions connId with
    | none =>
      rw [hW] at hkow
      simp at hkow
    | some l =>
      rw [hW] at hkow
      simp only [Option.getD_some] at hkow
      simp only [Option.map_some', Option.getD_some, List.mem_filter]
      exact ⟨hkow, by simp [hkne]⟩
  · intro t ht
    exact htask t ht

/-- handle_resize never changes the bridge state. -/
theorem handle_resize_state_id (st : BridgeState) (sid : String)
    (cols rows : Option JVal) (ok : Bool) :
    (handle_resize st sid cols rows ok).1 = st := by
  unfold handle_resize resize_session
  by_cases hsid : sid = ""
  · simp [hsid]
  · simp only [if_neg hsid]
    cases hc : cols.getD (JVal.jint 80) with
    | nonInt => cases hr : rows.getD (JVal.jint 24) <;> simp
    | jint cv =>
      cases hr : rows.getD (JVal.jint 24) with
      | nonInt => simp
      | jint rv =>
        by_cases h1 : cv < MIN_TERMINAL_COLS ∨ cv > MAX_TERMINAL_COLS
        · simp [h1]
        · by_cases h2 : rv < MIN_TERMINAL_ROWS ∨ rv > MAX_TERMINAL_ROWS
          · simp [h1, h2]
          · simp only [if_neg h1, if_neg h2]
            cases hs : dget st.sessions sid <;> simp

/-- _handle_close_session preserves the hygiene invariant. -/
theorem handle_close_session_inv (st : BridgeState) (connId sid : String)
    (h : Inv st connId) : Inv (handle_close_session st connId sid).1 connId := by
  unfold handle_close_session
  by_cases hsid : sid = ""
  · simpa [hsid] using h
  · simp only [if_neg hsid]
    have h2 := close_session_inv st connId sid h
    have hdead : dget (close_session st sid).1.sessions sid = none := by
      rw [close_session_sessions]
      simp
    have h3 := wsDiscard_inv (close_session st sid).1 connId sid h2 hdead
    exact inv_of_fields _ _ connId rfl rfl rfl rfl h3

/-- _handle_input preserves the hygiene invariant. -/
theorem handle_input_inv (st : BridgeState) (connId ip sid data : String)
    (now : Nat) (o : InputOracle) (h : Inv st connId) :
    Inv (handle_input st connId ip sid data now o).1 connId := by
  unfold handle_input
  by_cases hsid : sid = ""
  · simpa [hsid] using h
  · simp only [if_neg hsid]
    cases hs : dget st.sessions sid with
    | none => simpa using h
    | some s =>
      simp only []
      by_cases hok : o.cmdOk = false
      · simpa [hok] using h
      · simp only [if_neg hok]
        by_cases hd : data = ""
        · simpa [hd] using h
        · simp only [if_neg hd]
          by_cases hn : data.utf8ByteSize > MAX_INPUT_SIZE
          · simpa [hn] using h
          · simp only [if_neg hn]
            by_cases ht : (dget st.inputTotals sid).getD 0 + data.utf8ByteSize >
                MAX_TOTAL_INPUT_PER_SESSION
            · rw [if_pos ht]
              have h1 : Inv { st with inputTotals := dset st.inputTotals sid ((dget st.inputTotals sid).getD 0 + data.utf8ByteSize) } connId :=
                inv_of_fields st _ connId rfl rfl rfl rfl h
              have h2 := close_session_inv _ connId sid h1
              have hdead : dget (close_session { st with inputTotals := dset st.inputTotals sid ((dget st.inputTotals sid).getD 0 + data.utf8ByteSize) } sid).1.sessions sid = none := by
                rw [close_session_sessions]
                simp
              exact wsDiscard_inv _ connId sid h2 hdead
            · rw [if_neg ht]
              unfold write_to_session
              simp only [hs]
              have h1 : Inv { st with lastActivity := dset st.lastActivity sid now, inputTotals := dset st.inputTotals sid ((dget st.inputTotals sid).getD 0 + data.utf8ByteSize) } connId :=
                inv_of_fields st _ connId rfl rfl rfl rfl h
              cases hw : o.write with
              | ok => simpa using h1
              | sockError =>
                simp only []
                exact close_session_inv _ connId sid h1
              | otherError m => simpa using h1

/-- The owned-set update of _handle_create_session contains the new id
and everything it contained before. -/
theorem mem_owned_update (cur : List String) (sid : String) :
    sid ∈ (if sid ∈ cur then cur else cur ++ [sid]) ∧
    ∀ k ∈ cur, k ∈ (if sid ∈ cur then cur else cur ++ [sid]) := by
  by_cases hmem : sid ∈ cur
  · simp [hmem]
  · simp only [if_neg hmem]
    exact ⟨List.mem_append_right _ (by simp), fun k hk => List.mem_append_left _ hk⟩

/-- _handle_create_session preserves the hygiene invariant. -/
theorem handle_create_session_inv (st : BridgeState) (connId sid : String)
    (now : Nat) (cr : Except String String) (h : Inv st connId) :
    Inv (handle_create_session st connId sid now cr).1 connId := by
  obtain ⟨hown, htask⟩ := h
  unfold handle_create_session create_session
  by_cases hsid : sid = ""
  · simpa [hsid] using And.intro hown htask
  · simp only [if_neg hsid]
    cases hs : dget st.sessions sid with
    | some s =>
      constructor
      · intro k hk
        replace hk : (dget (dmodify st.sessions sid (fun s2 => { s2 with readTasks := s2.readTasks ++ [st.nextTaskId] })) k).isSome := hk
        show k ∈ (dget (dset st.wsSessions connId (if sid ∈ (dget st.wsSessions connId).getD [] then (dget st.wsSessions connId).getD [] else (dget st.wsSessions connId).getD [] ++ [sid])) connId).getD []
        rw [dget_dset_self, Option.getD_some]
        by_cases hks : k = sid
        · subst hks
          exact (mem_owned_update _ k).1
        · rw [dget_dmodify_ne _ _ _ _ (fun hh => hks hh.symm)] at hk
          exact (mem_owned_update _ sid).2 k (hown k hk)
      · intro t ht
        replace ht : t ∈ st.spawnedTasks ++ [st.nextTaskId] := ht
        rw [List.mem_append] at ht
        cases ht with
        | inr htid =>
          rw [List.mem_singleton] at htid
          subst htid
          refine Or.inr ⟨sid, { s with readTasks := s.readTasks ++ [st.nextTaskId] }, ?_, by simp⟩
          show dget (dmodify st.sessions sid (fun s2 => { s2 with readTasks := s2.readTasks ++ [st.nextTaskId] })) sid = some { s with readTasks := s.readTasks ++ [st.nextTaskId] }
          rw [dget_dmodify_self, hs]
          rfl
        | inl hold =>
          cases htask t hold with
          | inl hstop => exact Or.inl hstop
          | inr hex =>
            obtain ⟨sid2, s2, hs2, hts⟩ := hex
            by_cases hq : sid2 = sid
            · subst hq
              have hss : s2 = s := by
                rw [hs] at hs2
                exact (Option.some.inj hs2).symm
              subst hss
              refine Or.inr ⟨sid2, { s2 with readTasks := s2.readTasks ++ [st.nextTaskId] }, ?_, ?_⟩
              · show dget (dmodify st.sessions sid2 (fun s3 => { s3 with readTasks := s3.readTasks ++ [st.nextTaskId] })) sid2 = some { s2 with readTasks := s2.readTasks ++ [st.nextTaskId] }
                rw [dget_dmodify_self, hs2]
                rfl
              · exact List.mem_append_left _ hts
            · refine Or.inr ⟨sid2, s2, ?_, hts⟩
              show dget (dmodify st.sessions sid (fun s3 => { s3 with readTasks := s3.readTasks ++ [st.nextTaskId] })) sid2 = some s2
              rw [dget_dmodify_ne _ _ _ _ (fun hh => hq hh.symm)]
              exact hs2
    | none =>
      cases cr with
      | error e => exact ⟨hown, htask⟩
      | ok execId =>
        constructor
        · intro k hk
          replace hk : (dget (dmodify (dset st.sessions sid { sessionId := sid, execId := execId, readTasks := [] }) sid (fun s2 => { s2 with readTasks := s2.readTasks ++ [st.nextTaskId] })) k).isSome := hk
          show k ∈ (dget (dset st.wsSessions connId (if sid ∈ (dget st.wsSessions connId).getD [] then (dget st.wsSessions connId).getD [] else (dget st.wsSessions connId).getD [] ++ [sid])) connId).getD []
          rw [dget_dset_self, Option.getD_some]
          by_cases hks : k = sid
          · subst hks
            exact (mem_owned_update _ k).1
          · rw [dget_dmodify_ne _ _ _ _ (fun hh => hks hh.symm),
                dget_dset_ne _ _ _ _ (fun hh => hks hh.symm)] at hk
            exact (mem_owned_update _ sid).2 k (hown k hk)
        · intro t ht
          replace ht : t ∈ st.spawnedTasks ++ [st.nextTaskId] := ht
          rw [List.mem_append] at ht
          cases ht with
          | inr htid =>
            rw [List.mem_singleton] at htid
            subst htid
            refine Or.inr ⟨sid, { sessionId := sid, execId := execId, readTasks := [st.nextTaskId] }, ?_, by simp⟩
            show dget (dmodify (dset st.sessions sid { sessionId := sid, execId := execId, readTasks := [] }) sid (fun s2 => { s2 with readTasks := s2.readTasks ++ [st.nextTaskId] })) sid = some { sessionId := sid, execId := execId, readTasks := [st.nextTaskId] }
            rw [dget_dmodify_self, dget_dset_self]
            rfl
          | inl hold =>
            cases htask t hold with
            | inl hstop => exact Or.inl hstop
            | inr hex =>
              obtain ⟨sid2, s2, hs2, hts⟩ := hex
              have hq : sid2 ≠ sid := by
                intro hh
                subst hh
                rw [hs] at hs2
                cases hs2
              refine Or.inr ⟨sid2, s2, ?_, hts⟩
              show dget (dmodify (dset st.sessions sid { sessionId := sid, execId := execId, readTasks := [] }) sid (fun s3 => { s3 with readTasks := s3.readTasks ++ [st.nextTaskId] })) sid2 = some s2
              rw [dget_dmodify_ne _ _ _ _ (fun hh => hq hh.symm),
                  dget_dset_ne _ _ _ _ (fun hh => hq hh.symm)]
              exact hs2

/-- One dispatched frame preserves the hygiene invariant. -/
theorem dispatch_frame_inv (st : BridgeState) (connId ip : String)
    (f : RawFrame) (h : Inv st connId) :
    Inv (dispatch_frame st connId ip f).1 connId := by
  unfold dispatch_frame
  by_cases hb : f.byteLen > MAX_WEBSOCKET_MESSAGE_SIZE
  · simpa [hb] using h
  · simp only [if_neg hb]
    cases hp : f.parsed with
    | none => exact h
    | some m =>
      cases m with
      | createSession sid => exact handle_create_session_inv st connId sid f.oracle.now f.oracle.create h
      | input sid data => exact handle_input_inv st connId ip sid data f.oracle.now f.oracle.inp h
      | resize sid cols rows =>
        rw [handle_resize_state_id]
        exact h
      | closeSession sid => exact handle_close_session_inv st connId sid h
      | unknown => exact h

/-- The dispatch loop preserves the hygiene invariant. -/
theorem dispatch_loop_inv (st : BridgeState) (connId ip : String)
    (events : List InEvent) (h : Inv st connId) :
    Inv (dispatch_loop st connId ip events).1 connId := by
  induction events generalizing st with
  | nil => exact h
  | cons ev rest ih =>
    cases ev with
    | disconnect => exact h
    | frame f => exact ih _ (dispatch_frame_inv st connId ip f h)

/-- closeOwned leaves the spawned-task list and owned-set map alone. -/
theorem closeOwned_fields (sids : List String) (st : BridgeState) :
    (closeOwned st sids).1.spawnedTasks = st.spawnedTasks ∧
    (closeOwned st sids).1.wsSessions = st.wsSessions := by
  induction sids generalizing st with
  | nil => exact ⟨rfl, rfl⟩
  | cons sid rest ih =>
    unfold closeOwned
    have h1 := close_session_other_fields st sid
    have h2 := ih { (close_session st sid).1 with lastActivity := dpop (close_session st sid).1.lastActivity sid, inputTotals := dpop (close_session st sid).1.inputTotals sid }
    exact ⟨h2.1.trans h1.1, h2.2.trans h1.2.1⟩

/-- Stopped tasks only accumulate across closeOwned. -/
theorem closeOwned_stopped_sup (sids : List String) (st : BridgeState) :
    ∀ t ∈ st.stoppedTasks, t ∈ (closeOwned st sids).1.stoppedTasks := by
  induction sids generalizing st with
  | nil => exact fun t ht => ht
  | cons sid rest ih =>
    intro t ht
    unfold closeOwned
    exact ih _ t (close_session_stopped_sup st sid t ht)

/-- Registry after closeOwned: ids in the list are gone, the rest are
untouched. -/
theorem closeOwned_sessions (sids : List String) (st : BridgeState) (k : String) :
    dget (closeOwned st sids).1.sessions k =
      if k ∈ sids then none else dget st.sessions k := by
  induction sids generalizing st with
  | nil => simp [closeOwned]
  | cons sid rest ih =>
    unfold closeOwned
    rw [ih]
    by_cases hkr : k ∈ rest
    · simp [hkr]
    · have hcs := close_session_sessions st sid k
      by_cases hks : k = sid
      · simp only [if_neg hkr]
        rw [hcs, if_pos hks]
        simp [hks]
      · simp only [if_neg hkr]
        rw [hcs, if_neg hks]
        have : ¬ k ∈ sid :: rest := by
          intro hc
          cases hc with
          | head => exact hks rfl
          | tail _ hmem => exact hkr hmem
        rw [if_neg this]

/-- closeOwned stops every reader task of every session whose id is in
the closed list. -/
theorem closeOwned_stops (sids : List String) (st : BridgeState) (k : String)
    (s : PTYSession) (hk : k ∈ sids) (hs : dget st.sessions k = some s) :
    ∀ t ∈ s.readTasks, t ∈ (closeOwned st sids).1.stoppedTasks := by
  induction sids generalizing st with
  | nil => cases hk
  | cons sid rest ih =>
    intro t ht
    unfold closeOwned
    by_cases hks : k = sid
    · subst hks
      have h1 := close_session_stops_found st k s hs t ht
      exact closeOwned_stopped_sup rest _ t h1
    · have hkr : k ∈ rest := by
        cases hk with
        | head => exact absurd rfl hks
        | tail _ hmem => exact hmem
      have hs2 : dget ({ (close_session st sid).1 with lastActivity := dpop (close_session st sid).1.lastActivity sid, inputTotals := dpop (close_session st sid).1.inputTotals sid }).sessions k = some s := by
        show dget (close_session st sid).1.sessions k = some s
        rw [close_session_sessions, if_neg hks]
        exact hs
      exact ih _ hkr hs2 t ht

/-- The finally block really cleans up: empty registry, the owned set
deleted, and every spawned reader task stopped. -/
theorem teardown_clean (st : BridgeState) (connId : String) (b : Bool)
    (h : Inv st connId) :
    (teardown st connId b).1.sessions = [] ∧
    dget (teardown st connId b).1.wsSessions connId = none ∧
    (∀ t ∈ (teardown st connId b).1.spawnedTasks,
        t ∈ (teardown st connId b).1.stoppedTasks) := by
  obtain ⟨hown, htask⟩ := h
  unfold teardown
  cases hW : dget st.wsSessions connId with
  | none =>
    have hall : ∀ k, dget st.sessions k = none := by
      intro k
      cases hx : dget st.sessions k with
      | none => rfl
      | some s =>
        have := hown k (by rw [hx]; rfl)
        rw [hW] at this
        simp at this
    refine ⟨eq_nil_of_dget_none _ hall, hW, ?_⟩
    intro t ht
    cases htask t ht with
    | inl hstop => exact hstop
    | inr hex =>
      obtain ⟨sid2, s2, hs2, _⟩ := hex
      rw [hall sid2] at hs2
      cases hs2
  | some sids =>
    have hall : ∀ k, dget (closeOwned st sids).1.sessions k = none := by
      intro k
      rw [closeOwned_sessions]
      by_cases hk : k ∈ sids
      · rw [if_pos hk]
      · rw [if_neg hk]
        cases hx : dget st.sessions k with
        | none => rfl
        | some s =>
          have := hown k (by rw [hx]; rfl)
          rw [hW] at this
          simp only [Option.getD_some] at this
          exact absurd this hk
    refine ⟨eq_nil_of_dget_none _ hall, ?_, ?_⟩
    · show dget (dpop (closeOwned st sids).1.wsSessions connId) connId = none
      exact dget_dpop_self _ _
    · intro t ht
      replace ht : t ∈ (closeOwned st sids).1.spawnedTasks := ht
      rw [(closeOwned_fields sids st).1] at ht
      show t ∈ (closeOwned st sids).1.stoppedTasks
      cases htask t ht with
      | inl hstop => exact closeOwned_stopped_sup sids st t hstop
      | inr hex =>
        obtain ⟨sid2, s2, hs2, hts⟩ := hex
        have hmem : sid2 ∈ sids := by
          have := hown sid2 (by rw [hs2]; rfl)
          rw [hW] at this
          simpa using this
        exact closeOwned_stops sids st sid2 s2 hmem hs2 t hts

/-- The finally block always untracks the connection and cancels the
sweeper when one was started. -/
theorem teardown_effect_members (st : BridgeState) (connId : String) (b : Bool) :
    Effect.untrackConnection connId ∈ (teardown st connId b).2 ∧
    (b = true → Effect.cancelSweeper ∈ (teardown st connId b).2) := by
  unfold teardown
  cases hW : dget st.wsSessions connId with
  | none =>
    refine ⟨List.mem_cons_self _ _, fun hb => ?_⟩
    subst hb
    simp
  | some sids =>
    refine ⟨List.mem_cons_self _ _, fun hb => ?_⟩
    subst hb
    simp

/-- C3: on every exit path of the per-connection handler — any sequence
of frames and disconnects, any oracle outcomes, connection rate limit
passing or failing — when handle_websocket returns: the session
registry is empty (every owned session was closed and removed), the
connection's owned set is gone, the connection was untracked from the
rate-limit store, every reader task ever spawned was stopped, and if
the idle sweeper was started it was cancelled. -/
theorem connection_teardown_hygiene (connId ip : String) (connLimitOk : Bool)
    (events : List InEvent) :
    (handle_websocket BridgeState.init connId ip connLimitOk events).1.sessions = [] ∧
    dget (handle_websocket BridgeState.init connId ip connLimitOk events).1.wsSessions connId = none ∧
    Effect.untrackConnection connId ∈ (handle_websocket BridgeState.init connId ip connLimitOk events).2 ∧
    (∀ t ∈ (handle_websocket BridgeState.init connId ip connLimitOk events).1.spawnedTasks,
        t ∈ (handle_websocket BridgeState.init connId ip connLimitOk events).1.stoppedTasks) ∧
    (connLimitOk = true → Effect.cancelSweeper ∈ (handle_websocket BridgeState.init connId ip connLimitOk events).2) := by
  cases connLimitOk with
  | false =>
    refine ⟨?_, ?_, ?_, ?_, fun hb => nomatch hb⟩ <;>
      simp [handle_websocket, teardown, BridgeState.init, dget]
  | true =>
    have hInv : Inv { BridgeState.init with wsSessions := dset BridgeState.init.wsSessions connId [] } connId := by
      constructor
      · intro k hk
        simp [BridgeState.init, dget] at hk
      · intro t ht
        simp [BridgeState.init] at ht
    have hloop := dispatch_loop_inv { BridgeState.init with wsSessions := dset BridgeState.init.wsSessions connId [] } connId ip events hInv
    have hclean := teardown_clean (dispatch_loop { BridgeState.init with wsSessions := dset BridgeState.init.wsSessions connId [] } connId ip events).1 connId true hloop
    have hmem := teardown_effect_members (dispatch_loop { BridgeState.init with wsSessions := dset BridgeState.init.wsSessions connId [] } connId ip events).1 connId true
    refine ⟨hclean.1, hclean.2.1, ?_, hclean.2.2, fun _ => ?_⟩
    · show Effect.untrackConnection connId ∈ Effect.wsAccept :: Effect.checkConnection ip :: Effect.trackConnection connId ip :: Effect.spawnSweeper :: (dispatch_loop { BridgeState.init with wsSessions := dset BridgeState.init.wsSessions connId [] } connId ip events).2 ++ (teardown (dispatch_loop { BridgeState.init with wsSessions := dset BridgeState.init.wsSessions connId [] } connId ip events).1 connId true).2
      refine List.mem_cons_of_mem _ (List.mem_cons_of_mem _ (List.mem_cons_of_mem _ (List.mem_cons_of_mem _ ?_)))
      exact List.mem_append_right _ hmem.1
    · show Effect.cancelSweeper ∈ Effect.wsAccept :: Effect.checkConnection ip :: Effect.trackConnection connId ip :: Effect.spawnSweeper :: (dispatch_loop { BridgeState.init with wsSessions := dset BridgeState.init.wsSessions connId [] } connId ip events).2 ++ (teardown (dispatch_loop { BridgeState.init with wsSessions := dset BridgeState.init.wsSessions connId [] } connId ip events).1 connId true).2
      refine List.mem_cons_of_mem _ (List.mem_cons_of_mem _ (List.mem_cons_of_mem _ (List.mem_cons_of_mem _ ?_)))
      exact List.mem_append_right _ (hmem.2 rfl)

/-- Witness for C3: a connection that creates "s1" and then disconnects
ends with an empty registry, no owned set, an untrack effect, all
spawned readers stopped, and the sweeper cancelled. -/
theorem connection_teardown_hygiene_witness :
    (handle_websocket BridgeState.init "c" "ip" true [InEvent.frame createS1Frame, InEvent.disconnect]).1.sessions = [] ∧
    dget (handle_websocket BridgeState.init "c" "ip" true [InEvent.frame createS1Frame, InEvent.disconnect]).1.wsSessions "c" = none ∧
    Effect.untrackConnection "c" ∈ (handle_websocket BridgeState.init "c" "ip" true [InEvent.frame createS1Frame, InEvent.disconnect]).2 ∧
    (∀ t ∈ (handle_websocket BridgeState.init "c" "ip" true [InEvent.frame createS1Frame, InEvent.disconnect]).1.spawnedTasks,
        t ∈ (handle_websocket BridgeState.init "c" "ip" true [InEvent.frame createS1Frame, InEvent.disconnect]).1.stoppedTasks) ∧
    (true = true → Effect.cancelSweeper ∈ (handle_websocket BridgeState.init "c" "ip" true [InEvent.frame createS1Frame, InEvent.disconnect]).2) :=
  connection_teardown_hygiene "c" "ip" true [InEvent.frame createS1Frame, InEvent.disconnect]

end TerminalBridge
